import Mathlib

/-!
Verification development for the token-analytics modal of the
solana-web-wallet repository (src/app/components/TokenDetailsModal.tsx).

The component's algorithmic content is embedded shallowly over ℚ / ℤ:
JavaScript numbers are modelled as rationals wherever the computations stay
finite, and a small `JSNum` type (finite / ±Infinity / NaN) is used where a
division by zero matters.  The ambient random source (`Math.random()`) is
passed in as an explicit draw function `rand : ℕ → ℚ`, and the generation
time (`Date.now()`) as an explicit integer parameter.
-/

/-- Model of an IEEE-754 double as seen by the JavaScript code: either a
finite value (kept exact as a rational), one of the two infinities, or NaN.
Only the operations the component performs on possibly-degenerate values
are defined. -/
inductive JSNum where
  | fin (q : ℚ)
  | inf
  | ninf
  | nan
deriving DecidableEq, Repr

/-- JavaScript addition on `JSNum` (finite + finite is exact; opposite
infinities give NaN; NaN propagates). -/
def JSNum.add : JSNum → JSNum → JSNum
  | .fin a, .fin b => .fin (a + b)
  | .fin _, .inf => .inf
  | .inf, .fin _ => .inf
  | .inf, .inf => .inf
  | .fin _, .ninf => .ninf
  | .ninf, .fin _ => .ninf
  | .ninf, .ninf => .ninf
  | .inf, .ninf => .nan
  | .ninf, .inf => .nan
  | .nan, _ => .nan
  | _, .nan => .nan

/-- JavaScript division on `JSNum`: a nonzero finite value divided by zero
yields a signed infinity (not an error), `0 / 0` yields NaN, finite over
infinite yields zero, infinite over finite yields a signed infinity, and
NaN propagates. -/
def JSNum.div : JSNum → JSNum → JSNum
  | .fin a, .fin b =>
      if b = 0 then
        if a = 0 then .nan else if 0 < a then .inf else .ninf
      else .fin (a / b)
  | .fin _, .inf => .fin 0
  | .fin _, .ninf => .fin 0
  | .inf, .fin b => if 0 ≤ b then .inf else .ninf
  | .ninf, .fin b => if 0 ≤ b then .ninf else .inf
  | .inf, .inf => .nan
  | .inf, .ninf => .nan
  | .ninf, .inf => .nan
  | .ninf, .ninf => .nan
  | .nan, _ => .nan
  | _, .nan => .nan

/-- JavaScript subtraction on `JSNum` (finite - finite is exact; same-signed
infinities give NaN; NaN propagates). -/
def JSNum.sub : JSNum → JSNum → JSNum
  | .fin a, .fin b => .fin (a - b)
  | .fin _, .inf => .ninf
  | .fin _, .ninf => .inf
  | .inf, .fin _ => .inf
  | .ninf, .fin _ => .ninf
  | .inf, .inf => .nan
  | .inf, .ninf => .inf
  | .ninf, .inf => .ninf
  | .ninf, .ninf => .nan
  | .nan, _ => .nan
  | _, .nan => .nan

/-- JavaScript multiplication on `JSNum` (zero times an infinity is NaN, a
nonzero finite value times an infinity is a signed infinity; NaN
propagates). -/
def JSNum.mul : JSNum → JSNum → JSNum
  | .fin a, .fin b => .fin (a * b)
  | .fin a, .inf => if a = 0 then .nan else if 0 < a then .inf else .ninf
  | .inf, .fin b => if b = 0 then .nan else if 0 < b then .inf else .ninf
  | .fin a, .ninf => if a = 0 then .nan else if 0 < a then .ninf else .inf
  | .ninf, .fin b => if b = 0 then .nan else if 0 < b then .ninf else .inf
  | .inf, .inf => .inf
  | .inf, .ninf => .ninf
  | .ninf, .inf => .ninf
  | .ninf, .ninf => .inf
  | .nan, _ => .nan
  | _, .nan => .nan

/-- JavaScript's `Math.max` on `JSNum`: NaN if either argument is NaN,
otherwise the larger value. -/
def JSNum.max : JSNum → JSNum → JSNum
  | .nan, _ => .nan
  | _, .nan => .nan
  | .inf, _ => .inf
  | _, .inf => .inf
  | .ninf, b => b
  | a, .ninf => a
  | .fin a, .fin b => .fin (Max.max a b)

/-- Whether a `JSNum` is a finite number (what JavaScript's
`Number.isFinite` reports). -/
def JSNum.isFinite : JSNum → Bool
  | .fin _ => true
  | _ => false

/-- Modelled from the spec: the `TokenDetails` record of the missing
`types/tokenAnalytics` module ("identity and market facts for one token"),
restricted to the fields the verified claims read: the current price, the
signed 24h percentage change, and the optional logo reference. -/
structure TokenDetails where
  price : ℚ
  priceChange24h : ℚ
  logoUri : Option String
deriving DecidableEq, Repr

/-- Modelled from the spec: the `RealTradeData` record of the missing
`types/tokenAnalytics` module — 24h trading aggregates, where a zero value
is the "unknown/unavailable" sentinel. -/
structure RealTradeData where
  liquidity : ℚ
  volume24h : ℚ
  buys24h : ℕ
  sells24h : ℕ
deriving DecidableEq, Repr

/-- Modelled from the spec: the normalized `TokenAnalytics` aggregate of the
missing `types/tokenAnalytics` module, restricted to the components the
verified claims read (`details` and `tradeData`). -/
structure TokenAnalytics where
  details : TokenDetails
  tradeData : RealTradeData
deriving DecidableEq, Repr

/-- Modelled from the spec: the cached wallet-holding record
(`TokenHolding` of the missing `types/solana` module), restricted to the
fields `headerLogo` reads: the mint address and the optional logo. -/
structure TokenHolding where
  mint : String
  logoUri : Option String
deriving DecidableEq, Repr

/-- The closed set of display time-frames (source line 36). -/
inductive TimeFrame where
  | oneH
  | oneD
  | oneW
  | oneM
  | ytd
  | all
deriving DecidableEq, Repr

/-- The reserved native-asset (SOL) mint address compared against on source
line 147. -/
def SOL_MINT : String := "So11111111111111111111111111111111111111112"

/-- The fixed canonical SOL logo URI (source lines 38-39). -/
def SOL_LOGO_URI : String :=
  "https://raw.githubusercontent.com/solana-labs/token-list/main/assets/mainnet/So11111111111111111111111111111111111111112/logo.png"

/-- The configured point count of the synthetic series (source line 108:
`const points = 24`). -/
def points : ℕ := 24

/-- The start price computed on source line 111:
`currentPrice / (1 + priceChange24h / 100)`, over exact rationals (the
finite case). -/
def startPrice (currentPrice priceChange24h : ℚ) : ℚ :=
  currentPrice / (1 + priceChange24h / 100)

/-- The start-price computation of source line 111 carried out in
JavaScript float semantics (`JSNum`), so that the `priceChange24h = -100`
boundary is modelled faithfully: the code performs the division unguarded. -/
def jsStartPrice (currentPrice priceChange24h : ℚ) : JSNum :=
  JSNum.div (.fin currentPrice)
    (JSNum.add (.fin 1) (JSNum.div (.fin priceChange24h) (.fin 100)))

/-- The trend price of source line 119:
`startPrice + (currentPrice - startPrice) * progress` with
`progress = i / (points - 1)`. -/
def trendPrice (s currentPrice : ℚ) (i : ℕ) : ℚ :=
  s + (currentPrice - s) * ((i : ℚ) / ((points : ℚ) - 1))

/-- One synthesized series element as pushed on source lines 122-131: the
millisecond timestamp and the floored price.  The locale-formatted `time`
label is presentation-only string formatting and is not modelled. -/
structure PricePoint where
  timestamp : ℤ
  price : ℚ
deriving DecidableEq, Repr

/-- The `chartData` memo of source lines 103-135.  `selectedTimeFrame` is a
dependency of the memo but is never read by its body; `now` stands for
`Date.now()` (a single generation time) and `rand i` for the `Math.random()`
draw of iteration `i`.  Returns `[]` when `analytics` is `null`, otherwise
24 points: volatility `(rand i - 0.5) * 0.02`, trend price linearly
interpolated from `startPrice` to `currentPrice`, the final price
`trendPrice * (1 + volatility)` floored at `0.0001`, and timestamp
`now - (points - i) * 60 * 60 * 1000`.  Caveat: this rational embedding is
faithful to the JavaScript float path only while the start-price
denominator is nonzero (`priceChange24h ≠ -100`); at `-100` the rational
division convention gives `currentPrice / 0 = 0`, whereas the program
produces an infinite start price and then NaN at every emitted index —
that degenerate path is modelled separately by `jsStartPrice` and
`jsChartPrice` over `JSNum`. -/
def chartData (selectedTimeFrame : TimeFrame) (analytics : Option TokenAnalytics)
    (now : ℤ) (rand : ℕ → ℚ) : List PricePoint :=
  match analytics with
  | none => []
  | some analytics =>
    let currentPrice := analytics.details.price
    let priceChange24h := analytics.details.priceChange24h
    let s := startPrice currentPrice priceChange24h
    (List.range points).map (fun i =>
      let volatility := (rand i - 1/2) * (2/100)
      let t := trendPrice s currentPrice i
      let finalPrice := t * (1 + volatility)
      { timestamp := now - ((points : ℤ) - (i : ℤ)) * 60 * 60 * 1000
        price := max finalPrice (1/10000) })

/-- The price of the series point at index `i` (source lines 115-124)
carried out in JavaScript float semantics (`JSNum`): the start price via
the unguarded division, the trend price
`startPrice + (currentPrice - startPrice) * progress`, the perturbed final
price `trendPrice * (1 + volatility)`, and the `Math.max` floor at
`0.0001`.  `progress` and `volatility` are finite throughout and stay in
ℚ. -/
def jsChartPrice (currentPrice priceChange24h : ℚ) (rand : ℕ → ℚ) (i : ℕ) : JSNum :=
  let s := jsStartPrice currentPrice priceChange24h
  let progress : ℚ := (i : ℚ) / ((points : ℚ) - 1)
  let volatility : ℚ := (rand i - 1/2) * (2/100)
  let t := JSNum.add s (JSNum.mul (JSNum.sub (.fin currentPrice) s) (.fin progress))
  let finalPrice := JSNum.mul t (.fin (1 + volatility))
  JSNum.max finalPrice (.fin (1/10000))

/-- The `headerLogo` memo of source lines 145-152: if the existing token
record's mint is the reserved SOL mint, the canonical SOL logo URI wins
outright; otherwise the freshly fetched logo is preferred and the existing
record's logo is the fallback (`null` when both are absent). -/
def headerLogo (analytics : Option TokenAnalytics)
    (existingTokenData : Option TokenHolding) : Option String :=
  if existingTokenData.map TokenHolding.mint = some SOL_MINT then
    some SOL_LOGO_URI
  else
    (analytics.bind fun a => a.details.logoUri).orElse
      fun _ => existingTokenData.bind TokenHolding.logoUri

/-- Render outcome of the Liquidity cell (source lines 416-421): either the
currency-formatted amount or the "Failed to load" unavailable label.  The
excluded `formatCurrency` helper is kept abstract by carrying the amount. -/
inductive LiquidityDisplay where
  | formatted (amount : ℚ)
  | failedToLoad
deriving DecidableEq, Repr

/-- The Liquidity cell expression of source lines 418-420:
`liquidity > 0 ? formatCurrency(liquidity) : "Failed to load"`. -/
def liquidityDisplay (liquidity : ℚ) : LiquidityDisplay :=
  if 0 < liquidity then .formatted liquidity else .failedToLoad

/-- The Unique Wallets cell expression of source lines 522-532: when either
24h count is positive, `max(Math.floor((buys24h + sells24h) * 0.3), 50)`;
otherwise the "Failed to load" label (`none`). -/
def uniqueWalletsDisplay (tradeData : RealTradeData) : Option ℤ :=
  if 0 < tradeData.buys24h ∨ 0 < tradeData.sells24h then
    some (max ⌊((tradeData.buys24h : ℚ) + (tradeData.sells24h : ℚ)) * (3/10)⌋ 50)
  else
    none

/-- The component state touched by `fetchTokenAnalytics`: the held
analytics record, the loading flag, and the error indicator. -/
structure ModalState where
  analytics : Option TokenAnalytics
  loading : Bool
  error : Option String
deriving DecidableEq, Repr

/-- The `fetchTokenAnalytics` handler of source lines 67-82 as a state
transition.  The outcome of the external `getTokenAnalytics` call is passed
in as `providerResult`.  With no mint the state is untouched; otherwise
loading is set and the error cleared, then on success the record is stored
and on failure only the generic error string is set, with loading cleared
in both cases (the `finally` block). -/
def fetchTokenAnalytics (tokenMint : Option String)
    (providerResult : Except Unit TokenAnalytics) (s : ModalState) : ModalState :=
  match tokenMint with
  | none => s
  | some _ =>
    let s₁ : ModalState := { s with loading := true, error := none }
    match providerResult with
    | .ok data => { s₁ with analytics := some data, loading := false }
    | .error _ =>
        { s₁ with error := some "Failed to load token data", loading := false }

/-- C1: for every pair with `current > 0` and `changePct ≠ -100`, the
reconstructor's start price equals `current / (1 + changePct/100)` exactly
— the division is exact (multiplying back by the denominator recovers the
current price), and no random perturbation enters the computation. -/
theorem startPrice_exact (current changePct : ℚ) (hpos : 0 < current)
    (hne : changePct ≠ -100) :
    startPrice current changePct = current / (1 + changePct / 100) ∧
    startPrice current changePct * (1 + changePct / 100) = current := by
  have hden : 1 + changePct / 100 ≠ 0 := by
    intro h
    apply hne
    field_simp at h
    linarith
  exact ⟨rfl, div_mul_cancel₀ current hden⟩

/-- Witness for C1 at `current = 5/4`, `changePct = 25`: the start price is
exactly 1. -/
theorem startPrice_exact_witness :
    startPrice (5/4) 25 = (5/4) / (1 + 25 / 100) ∧
    startPrice (5/4) 25 * (1 + 25 / 100) = 5/4 :=
  startPrice_exact (5/4) 25 (by norm_num) (by norm_num)

/-- C8: the selected time-frame has no functional effect on series
generation — for any two time-frames, the same analytics record, generation
time and random draws produce the identical series. -/
theorem chartData_timeframe_irrelevant (tf₁ tf₂ : TimeFrame)
    (analytics : Option TokenAnalytics) (now : ℤ) (rand : ℕ → ℚ) :
    chartData tf₁ analytics now rand = chartData tf₂ analytics now rand := rfl

/-- C2 counterexample: at the spec's example input `current = 1.25`,
`changePct = -100`, the code's unguarded division (source line 111, in
JavaScript float semantics) silently produces the non-finite start price
`+Infinity`; no error is raised and no fallback applied — the embedding of
the computation is total and has no error outcome. -/
theorem jsStartPrice_neg100_counterexample :
    jsStartPrice (5/4) (-100) = JSNum.inf ∧
    (jsStartPrice (5/4) (-100)).isFinite = false := by
  have h : jsStartPrice (5/4) (-100) = JSNum.inf := by
    norm_num [jsStartPrice, JSNum.div, JSNum.add]
  exact ⟨h, by rw [h]; rfl⟩

/-- C2 (amended): when `changePct = -100`, the code applies no guard: for
every positive current price the division is performed and yields the
non-finite start price `+Infinity`, silently. -/
theorem jsStartPrice_neg100 (current : ℚ) (hpos : 0 < current) :
    jsStartPrice current (-100) = JSNum.inf ∧
    (jsStartPrice current (-100)).isFinite = false := by
  have h : jsStartPrice current (-100) = JSNum.inf := by
    norm_num [jsStartPrice, JSNum.div, JSNum.add, hpos.ne', hpos]
  exact ⟨h, by rw [h]; rfl⟩

/-- Witness for the amended C2 at `current = 5/4`. -/
theorem jsStartPrice_neg100_witness :
    jsStartPrice (5/4) (-100) = JSNum.inf ∧
    (jsStartPrice (5/4) (-100)).isFinite = false :=
  jsStartPrice_neg100 (5/4) (by norm_num)

/-- C3: every generated series has exactly the configured 24 points; the
point at index `i` carries timestamp `24 - i` hours (in milliseconds)
before the generation time; hence timestamps are strictly increasing,
oldest first. -/
theorem chartData_shape (tf : TimeFrame) (a : TokenAnalytics) (now : ℤ)
    (rand : ℕ → ℚ) :
    (chartData tf (some a) now rand).length = 24 ∧
    (∀ i : ℕ, i < 24 →
      ((chartData tf (some a) now rand)[i]?.map PricePoint.timestamp)
        = some (now - (24 - (i : ℤ)) * 60 * 60 * 1000)) ∧
    (∀ (i j : ℕ) (ti tj : ℤ), i < j → j < 24 →
      ((chartData tf (some a) now rand)[i]?.map PricePoint.timestamp) = some ti →
      ((chartData tf (some a) now rand)[j]?.map PricePoint.timestamp) = some tj →
      ti < tj) := by
  have hts : ∀ i : ℕ, i < 24 →
      ((chartData tf (some a) now rand)[i]?.map PricePoint.timestamp)
        = some (now - (24 - (i : ℤ)) * 60 * 60 * 1000) := by
    intro i hi
    simp [chartData, points, List.getElem?_map, List.getElem?_range hi]
  refine ⟨by simp [chartData, points], hts, ?_⟩
  intro i j ti tj hij hj hti htj
  rw [hts i (hij.trans hj)] at hti
  rw [hts j hj] at htj
  have h1 := Option.some.inj hti
  have h2 := Option.some.inj htj
  omega

/-- Witness for C3 at a concrete record, generation time 0, constant draw:
the length, the timestamp of point 3, and the order of points 3 and 7. -/
theorem chartData_shape_witness :
    (chartData TimeFrame.oneD (some ⟨⟨5/4, 25, none⟩, ⟨0, 0, 0, 0⟩⟩) 0
        (fun _ => 1/2)).length = 24 ∧
    ((chartData TimeFrame.oneD (some ⟨⟨5/4, 25, none⟩, ⟨0, 0, 0, 0⟩⟩) 0
        (fun _ => 1/2))[3]?.map PricePoint.timestamp)
      = some (0 - (24 - (3 : ℤ)) * 60 * 60 * 1000) := by
  have h := chartData_shape TimeFrame.oneD ⟨⟨5/4, 25, none⟩, ⟨0, 0, 0, 0⟩⟩ 0
    (fun _ => 1/2)
  exact ⟨h.1, h.2.1 3 (by norm_num)⟩

/-- Helper for C4: a concrete series point whose price sits exactly on the
floor: with current price `0.00005` and zero 24h change, the noise-free
final price `0.00005` is below the floor, so `Math.max` clamps the emitted
price to exactly `0.0001`. -/
theorem floor_point_mem :
    (PricePoint.mk (-86400000) (1/10000)) ∈
      chartData TimeFrame.oneD (some ⟨⟨1/20000, 0, none⟩, ⟨0, 0, 0, 0⟩⟩) 0
        (fun _ => 1/2) := by
  simp only [chartData, List.mem_map, List.mem_range]
  refine ⟨0, by norm_num [points], ?_⟩
  simp only [PricePoint.mk.injEq]
  constructor
  · norm_num [points]
  · norm_num [startPrice, trendPrice]

/-- C4 counterexample: the claim's strict bound fails — at a concrete input
the emitted price equals the floor `0.0001` exactly, so it is not strictly
greater than it. -/
theorem chartData_price_floor_counterexample :
    ¬ (∀ p ∈ chartData TimeFrame.oneD
          (some ⟨⟨1/20000, 0, none⟩, ⟨0, 0, 0, 0⟩⟩) 0 (fun _ => 1/2),
        (1 : ℚ)/10000 < p.price) := by
  intro h
  have := h _ floor_point_mem
  norm_num at this

/-- Helper: at `priceChange24h = -100` the real program's floor bound fails
outright — in JavaScript float semantics the start price is infinite, the
trend price is `Infinity + (-Infinity) * progress = NaN` at every index
(`-Infinity * 0 = NaN` at index 0), and `Math.max(NaN, 0.0001) = NaN`, so
every emitted price is NaN.  This is why the floor bound below is stated
only for `priceChange24h ≠ -100`, the domain on which the rational
embedding agrees with the float path. -/
theorem jsChartPrice_neg100_nan (current : ℚ) (rand : ℕ → ℚ) (i : ℕ)
    (hpos : 0 < current) :
    jsChartPrice current (-100) rand i = JSNum.nan := by
  have hs : jsStartPrice current (-100) = JSNum.inf := by
    norm_num [jsStartPrice, JSNum.div, JSNum.add, hpos.ne', hpos]
  unfold jsChartPrice
  rw [hs]
  rcases Nat.eq_zero_or_pos i with h0 | hipos
  · subst h0
    simp [JSNum.sub, JSNum.mul, JSNum.add, JSNum.max, points]
  · have hprog : (0 : ℚ) < (i : ℚ) / ((points : ℚ) - 1) := by
      apply div_pos
      · exact_mod_cast hipos
      · norm_num [points]
    simp [JSNum.sub, JSNum.mul, JSNum.add, JSNum.max, hprog, hprog.ne']

/-- C4 (amended): for every input whose 24h change is not exactly `-100`
(the domain on which the finite rational embedding is faithful — at `-100`
the program emits NaN at every index, see `jsChartPrice_neg100_nan`),
every emitted price is at least the floor `0.0001` (hence strictly
positive, never zero or negative), for any random draw; equality with the
floor is attained when the perturbed trend price falls at or below the
floor. -/
theorem chartData_price_ge_floor (tf : TimeFrame) (a : TokenAnalytics)
    (now : ℤ) (rand : ℕ → ℚ) (p : PricePoint)
    (hne : a.details.priceChange24h ≠ -100)
    (hp : p ∈ chartData tf (some a) now rand) :
    1/10000 ≤ p.price ∧ 0 < p.price := by
  simp only [chartData, List.mem_map, List.mem_range] at hp
  obtain ⟨i, -, rfl⟩ := hp
  exact ⟨le_max_right _ _, lt_of_lt_of_le (by norm_num) (le_max_right _ _)⟩

/-- Witness for the amended C4 at the concrete floor-hitting point (whose
24h change is `0 ≠ -100`). -/
theorem chartData_price_ge_floor_witness :
    (1 : ℚ)/10000 ≤ (PricePoint.mk (-86400000) (1/10000)).price ∧
    0 < (PricePoint.mk (-86400000) (1/10000)).price :=
  chartData_price_ge_floor TimeFrame.oneD
    ⟨⟨1/20000, 0, none⟩, ⟨0, 0, 0, 0⟩⟩ 0 (fun _ => 1/2) _ (by norm_num)
    floor_point_mem

/-- C5: with the random perturbation disabled, the trend component of the
series (source line 119) at the first index equals the computed start price
and at the last index (`points - 1`) equals the current price, for every
valid input. -/
theorem trendPrice_endpoints (current changePct : ℚ) (hpos : 0 < current)
    (hne : changePct ≠ -100) :
    trendPrice (startPrice current changePct) current 0 = startPrice current changePct ∧
    trendPrice (startPrice current changePct) current (points - 1) = current := by
  constructor
  · simp [trendPrice]
  · norm_num [trendPrice, points]

/-- Witness for C5 at `current = 5/4`, `changePct = 25`. -/
theorem trendPrice_endpoints_witness :
    trendPrice (startPrice (5/4) 25) (5/4) 0 = startPrice (5/4) 25 ∧
    trendPrice (startPrice (5/4) 25) (5/4) (points - 1) = 5/4 :=
  trendPrice_endpoints (5/4) 25 (by norm_num) (by norm_num)

/-- C6: when the existing record's mint is not the reserved SOL mint, a
missing fetched logo together with a present existing logo merges to the
existing logo; when the existing record's mint is the reserved SOL mint,
the merge yields the fixed canonical URI regardless of both logo inputs. -/
theorem headerLogo_merge (a : Option TokenAnalytics) (e : TokenHolding) (l : String) :
    (e.mint ≠ SOL_MINT → (a.bind fun x => x.details.logoUri) = none →
      e.logoUri = some l → headerLogo a (some e) = some l) ∧
    (e.mint = SOL_MINT → headerLogo a (some e) = some SOL_LOGO_URI) := by
  constructor
  · intro hmint hfetched hex
    simp [headerLogo, hmint, hfetched, hex, Option.orElse]
  · intro hmint
    simp [headerLogo, hmint]

/-- Witness for C6: a non-SOL holding with a present logo and a missing
fetched logo keeps its logo; a SOL-mint holding gets the canonical URI. -/
theorem headerLogo_merge_witness :
    headerLogo none (some ⟨"m", some "x"⟩) = some "x" ∧
    headerLogo none (some ⟨SOL_MINT, some "x"⟩) = some SOL_LOGO_URI :=
  ⟨(headerLogo_merge none ⟨"m", some "x"⟩ "x").1 (by simp [SOL_MINT]) rfl rfl,
   (headerLogo_merge none ⟨SOL_MINT, some "x"⟩ "x").2 rfl⟩

/-- C7: a zero provider liquidity (the unavailable sentinel) renders the
"Failed to load" unavailable label, not a formatted zero amount; a strictly
positive liquidity renders as the formatted currency value. -/
theorem liquidityDisplay_sentinel (liquidity : ℚ) :
    (liquidity = 0 → liquidityDisplay liquidity = LiquidityDisplay.failedToLoad) ∧
    (0 < liquidity → liquidityDisplay liquidity = LiquidityDisplay.formatted liquidity) := by
  constructor
  · intro h
    norm_num [liquidityDisplay, h]
  · intro h
    simp [liquidityDisplay, h]

/-- Witness for C7 at liquidity `0` and liquidity `5/2`. -/
theorem liquidityDisplay_sentinel_witness :
    liquidityDisplay 0 = LiquidityDisplay.failedToLoad ∧
    liquidityDisplay (5/2) = LiquidityDisplay.formatted (5/2) :=
  ⟨(liquidityDisplay_sentinel 0).1 rfl,
   (liquidityDisplay_sentinel (5/2)).2 (by norm_num)⟩

/-- C9: when the provider call fails, the operation fails as a whole: the
held analytics record is unchanged (no partial record), only the generic
error indicator is set and loading is cleared; and re-invoking the same
fetch with a successful provider result succeeds (the failure is
retryable, clearing the error and storing the record). -/
theorem fetchTokenAnalytics_failure_atomic (m : String) (s : ModalState)
    (d : TokenAnalytics) :
    (fetchTokenAnalytics (some m) (.error ()) s).analytics = s.analytics ∧
    (fetchTokenAnalytics (some m) (.error ()) s).error
      = some "Failed to load token data" ∧
    (fetchTokenAnalytics (some m) (.error ()) s).loading = false ∧
    (fetchTokenAnalytics (some m) (.ok d)
        (fetchTokenAnalytics (some m) (.error ()) s)).analytics = some d ∧
    (fetchTokenAnalytics (some m) (.ok d)
        (fetchTokenAnalytics (some m) (.error ()) s)).error = none :=
  ⟨rfl, rfl, rfl, rfl, rfl⟩

/-- C10: the Unique Wallets figure is synthesized: whenever a 24h buy or
sell count is positive it equals `max(floor((buys + sells) * 0.3), 50)` —
hence is always at least 50 — and when both counts are zero the
unavailable label (`none`) is rendered instead. -/
theorem uniqueWallets_synthesized (td : RealTradeData) :
    (0 < td.buys24h ∨ 0 < td.sells24h →
      uniqueWalletsDisplay td
        = some (max ⌊((td.buys24h : ℚ) + (td.sells24h : ℚ)) * (3/10)⌋ 50) ∧
      ∀ v, uniqueWalletsDisplay td = some v → 50 ≤ v) ∧
    (td.buys24h = 0 → td.sells24h = 0 → uniqueWalletsDisplay td = none) := by
  constructor
  · intro h
    refine ⟨by simp [uniqueWalletsDisplay, h], ?_⟩
    intro v hv
    simp only [uniqueWalletsDisplay, if_pos h, Option.some.injEq] at hv
    exact hv ▸ le_max_right _ _
  · intro h1 h2
    norm_num [uniqueWalletsDisplay, h1, h2]

/-- Witness for C10: with 10 buys and 0 sells the figure is
`max(floor(3), 50) = 50`; with both counts zero the label is unavailable. -/
theorem uniqueWallets_synthesized_witness :
    uniqueWalletsDisplay ⟨0, 0, 10, 0⟩ = some 50 ∧
    uniqueWalletsDisplay ⟨0, 0, 0, 0⟩ = none := by
  have h := (uniqueWallets_synthesized ⟨0, 0, 10, 0⟩).1 (by norm_num)
  refine ⟨?_, (uniqueWallets_synthesized ⟨0, 0, 0, 0⟩).2 rfl rfl⟩
  rw [h.1]
  norm_num
